import Mathlib

/-!
Shallow embedding of `src/server.py` (item-api): an aiohttp + aiosqlite CRUD
service over a single `items` table.

Modelling decisions, each traceable to the source:

* The `items` table (`try_make_db`) is a list of rows ordered by rowid; SQLite
  assigns a new `INTEGER PRIMARY KEY` rowid as one greater than the largest
  rowid in use (`nextId`), so appending keeps the list in SELECT (rowid) order.
* SQL/JSON values are `Val` (`null`, text, integer) — the payload fields are
  stored untyped, exactly as submitted, and the schema has no NOT NULL
  constraints.
* A JSON object body is an association list `Payload`; `Payload.lookup`
  mirrors Python dict key lookup, a missing key raising `KeyError`.
* Path parameters arrive as raw strings (`request.match_info["item"]`).
  Binding a string into `... WHERE id = ?` and comparing against the INTEGER
  column applies SQLite numeric affinity: the text matches exactly the row
  whose id it denotes as a decimal numeral, and a non-numeric text matches
  nothing.  `idMatches` models this via `textToNat?` (canonical and
  zero-padded decimal numerals convert; signed, fractional or padded forms
  are modelled as matching nothing — no route in the claims exercises them).
* `api_del_item` passes `item_id` itself (not `[item_id]`) as the parameter
  sequence.  Python sqlite3 treats a `str` as a sequence of one-character
  parameters, so the statement gets `item_id.length` bindings for its single
  placeholder and raises `ProgrammingError` unless the id is one character
  long.  This is modelled faithfully in `api_del_item`.
* Exceptions are the `.error` branch of `Except String`; the middleware
  `handle_json_error` converts them to a `{"status": "failed"}` envelope with
  HTTP status 400.  Uncommitted work: the only handler path that returns
  without `db.commit()` after a write statement is the delete not-found
  branch, where zero rows changed, so the store needs no rollback modelling.
-/

/-- A SQL/JSON value as stored in and returned from the `items` table. -/
inductive Val where
  | null
  | str (s : String)
  | int (n : Int)
deriving DecidableEq, Repr

/-- A JSON object body: association list of key/value pairs, as a Python dict. -/
abbrev Payload := List (String × Val)

/-- Python dict lookup returning `none` where subscripting would raise `KeyError`. -/
def Payload.lookup (p : Payload) (k : String) : Option Val :=
  match p with
  | [] => none
  | (k2, v) :: rest => if k2 = k then some v else Payload.lookup rest k

/-- One row of the `items` table (`try_make_db` schema: id INTEGER PRIMARY KEY,
title, description, owner, editor TEXT, price, quantity INTEGER — all
non-id columns nullable). -/
structure Row where
  id : Nat
  title : Val
  description : Val
  owner : Val
  editor : Val
  price : Val
  quantity : Val
deriving DecidableEq, Repr

/-- The `items` table, in rowid (SELECT) order. -/
abbrev Store := List Row

/-- Value of a decimal digit string, `none` on any non-digit character. -/
def digitsVal (cs : List Char) (acc : Nat) : Option Nat :=
  match cs with
  | [] => some acc
  | c :: rest =>
      if c.isDigit then digitsVal rest (acc * 10 + (c.toNat - 48)) else none

/-- SQLite numeric-affinity conversion of a TEXT value compared against an
INTEGER column: a (non-empty) decimal numeral converts to the integer it
spells; any other text keeps TEXT storage class and compares unequal to
every integer. -/
def textToNat? (s : String) : Option Nat :=
  match s.data with
  | [] => none
  | cs => digitsVal cs 0

/-- SQLite comparison of a bound TEXT path parameter against the INTEGER `id`
column: numeric affinity converts the text to the integer it spells, and a
text that is not an integer numeral compares unequal to every id. -/
def idMatches (s : String) (id : Nat) : Bool :=
  textToNat? s == some id

/-- The rowid SQLite assigns to a fresh INSERT into `items` (`cursor.lastrowid`):
one more than the largest rowid in use, 1 on an empty table. -/
def nextId (store : Store) : Nat :=
  (List.map Row.id store).foldr max 0 + 1

/-- How the id is represented in a JSON response: POST and GET /api emit the
integer rowid, GET /api/{id} and PATCH /api/{id} echo the raw path string. -/
inductive IdRepr where
  | intId (n : Nat)
  | strId (s : String)
deriving DecidableEq, Repr

/-- The `data` object of a success envelope for a single item. -/
structure ItemOut where
  id : IdRepr
  owner : Val
  editor : Val
  title : Val
  description : Val
  price : Val
  quantity : Val
deriving DecidableEq, Repr

/-- JSON response bodies the handlers produce. -/
inductive Body where
  | text (s : String)
  | okData (d : ItemOut)
  | okList (l : List ItemOut)
  | okId (id : String)
  | failed (reason : String)
  | fail (reason : String)
deriving DecidableEq, Repr

/-- An HTTP response: status code and JSON body. -/
structure Response where
  status : Nat
  body : Body
deriving DecidableEq, Repr

/-- `fetch_item`: SELECT the row whose id the text parameter denotes; raise
`RuntimeError` when no row matches; echo the passed (string) item_id in the
result dict. -/
def fetch_item (store : Store) (item_id : String) : Except String ItemOut :=
  match List.find? (fun r => idMatches item_id r.id) store with
  | none => .error ("Item " ++ item_id ++ " does not exist.")
  | some row =>
      .ok { id := .strId item_id, owner := row.owner, editor := row.editor,
            title := row.title, description := row.description,
            price := row.price, quantity := row.quantity }

/-- `index`: GET / returns placeholder text, no store access. -/
def index : Except String Response :=
  .ok { status := 200, body := .text "Placeholder Text" }

/-- `api_list_items`: GET /api returns every row, ids as integers. -/
def api_list_items (store : Store) : Except String Response :=
  .ok { status := 200,
        body := .okList (List.map (fun r : Row =>
          { id := .intId r.id, owner := r.owner, editor := r.editor,
            title := r.title, description := r.description,
            price := r.price, quantity := r.quantity }) store) }

/-- `api_new_item`: POST /api reads the five required keys from the JSON body
(in source order, `KeyError` on the first absent one), INSERTs a row with
`editor = owner` and the next rowid, commits, and echoes the submitted
values plus the assigned integer id. -/
def api_new_item (store : Store) (post : Payload) :
    Store × Except String Response :=
  match post.lookup "title" with
  | none => (store, .error "KeyError: title")
  | some title =>
  match post.lookup "owner" with
  | none => (store, .error "KeyError: owner")
  | some owner =>
  match post.lookup "description" with
  | none => (store, .error "KeyError: description")
  | some description =>
  match post.lookup "price" with
  | none => (store, .error "KeyError: price")
  | some price =>
  match post.lookup "quantity" with
  | none => (store, .error "KeyError: quantity")
  | some quantity =>
      let item_id := nextId store
      (store ++ [{ id := item_id, title := title, description := description,
                   owner := owner, editor := owner, price := price,
                   quantity := quantity }],
       .ok { status := 200,
             body := .okData { id := .intId item_id, owner := owner,
                               editor := owner, title := title,
                               description := description, price := price,
                               quantity := quantity } })

/-- `api_get_item`: GET /api/{item} fetches by the raw path string and wraps
the item (string id) in a success envelope. -/
def api_get_item (store : Store) (item_id : String) : Except String Response :=
  match fetch_item store item_id with
  | .error e => .error e
  | .ok item => .ok { status := 200, body := .okData item }

/-- `api_del_item`: DELETE /api/{item} runs `DELETE ... WHERE id = ?` with the
raw string as the parameter sequence.  A string of length ≠ 1 supplies the
wrong number of bindings and raises `ProgrammingError`; otherwise the rows
the text matches are removed, with rowcount 0 answered by a 404 `fail`
envelope and success by `{"status":"ok","id": item_id}`. -/
def api_del_item (store : Store) (item_id : String) :
    Store × Except String Response :=
  if item_id.length = 1 then
    let rowcount := List.countP (fun r => idMatches item_id r.id) store
    if rowcount = 0 then
      (store, .ok { status := 404,
                    body := .fail ("item " ++ item_id ++ " does not exist.") })
    else
      (List.filter (fun r => !(idMatches item_id r.id)) store,
       .ok { status := 200, body := .okId item_id })
  else
    (store,
     .error ("Incorrect number of bindings supplied. The current statement uses 1, and there are "
             ++ toString item_id.length ++ " supplied."))

/-- The UPDATE applied to a matched row: each of the three updatable columns
is overwritten when its key was present in the PATCH body. -/
def applyFields (ft fd fe : Option Val) (r : Row) : Row :=
  { r with title := ft.getD r.title,
           description := fd.getD r.description,
           editor := fe.getD r.editor }

/-- The store PATCH commits before re-fetching: when at least one of the
title/description/editor keys is present in the body, the UPDATE statement
overwrites those columns on the matching row; with an empty field subset no
statement runs. -/
def updatedStore (store : Store) (item_id : String) (item : Payload) : Store :=
  if (item.lookup "title").isSome || (item.lookup "description").isSome ||
     (item.lookup "editor").isSome then
    List.map (fun r => if idMatches item_id r.id then
      applyFields (item.lookup "title") (item.lookup "description")
        (item.lookup "editor") r else r) store
  else store

/-- `api_update_post`: PATCH /api/{item} collects the subset of
title/description/editor keys present in the body; when non-empty it runs
one UPDATE on the matching row and commits (`updatedStore`); then it
re-fetches the item (raising `RuntimeError` when absent) and returns it with
the string id. -/
def api_update_post (store : Store) (item_id : String) (item : Payload) :
    Store × Except String Response :=
  match fetch_item (updatedStore store item_id item) item_id with
  | .error e => (updatedStore store item_id item, .error e)
  | .ok new_item =>
      (updatedStore store item_id item,
       .ok { status := 200, body := .okData new_item })

/-- One inbound request to any of the six routes. -/
inductive Request where
  | getIndex
  | getList
  | postNew (post : Payload)
  | getItem (item_id : String)
  | patchItem (item_id : String) (item : Payload)
  | deleteItem (item_id : String)

/-- Route dispatch: the handler's committed store plus its outcome, an
exception still unhandled. -/
def dispatch (store : Store) : Request → Store × Except String Response
  | .getIndex => (store, index)
  | .getList => (store, api_list_items store)
  | .postNew post => api_new_item store post
  | .getItem item_id => (store, api_get_item store item_id)
  | .patchItem item_id item => api_update_post store item_id item
  | .deleteItem item_id => api_del_item store item_id

/-- `handle_json_error`: the wrapper around every handler; an escaping
exception becomes `{"status": "failed", "reason": str(ex)}` with HTTP 400. -/
def handle_json_error (h : Store × Except String Response) : Store × Response :=
  match h with
  | (s, .ok resp) => (s, resp)
  | (s, .error ex) => (s, { status := 400, body := .failed ex })

/-- A full request cycle: dispatch wrapped in the error-translation layer. -/
def serve (store : Store) (req : Request) : Store × Response :=
  handle_json_error (dispatch store req)

/-- The store after serving a request (the response discarded). -/
def stepStore (store : Store) (req : Request) : Store :=
  (serve store req).1

/-- The store after serving a request sequence starting from the empty table,
as created at first startup by `try_make_db`. -/
def execTrace (reqs : List Request) : Store :=
  List.foldl stepStore [] reqs

/-! ### Claim C1: the error-translation wrapper catches every exception -/

/-- C1: For every request to any handler (GET /, GET /api, POST /api,
GET /api/{id}, PATCH /api/{id}, DELETE /api/{id}) and every exception the
handler raises, `handle_json_error` catches it and returns the JSON failure
envelope `{"status": "failed", "reason": <message>}` with HTTP status 400,
leaving the handler's committed store in place; no exception escapes to the
client unstructured. -/
theorem C1_wrapper_catches_every_exception (store : Store) (req : Request)
    (msg : String) (h : (dispatch store req).2 = Except.error msg) :
    (serve store req).1 = (dispatch store req).1 ∧
    (serve store req).2 = { status := 400, body := Body.failed msg } := by
  unfold serve handle_json_error
  rcases hd : dispatch store req with ⟨s, r⟩
  rw [hd] at h
  cases r with
  | ok v => simp at h
  | error e =>
    simp only at h
    cases h
    exact ⟨rfl, rfl⟩

/-- Witness for C1: on an empty store, GET /api/1 raises the `RuntimeError`
from `fetch_item`, and the served response is the 400 failure envelope. -/
theorem C1_wrapper_catches_every_exception_witness :
    (dispatch [] (Request.getItem "1")).2 =
      Except.error "Item 1 does not exist." ∧
    ((serve [] (Request.getItem "1")).1 = (dispatch [] (Request.getItem "1")).1 ∧
     (serve [] (Request.getItem "1")).2 =
       { status := 400, body := Body.failed "Item 1 does not exist." }) :=
  ⟨rfl, C1_wrapper_catches_every_exception [] (Request.getItem "1")
          "Item 1 does not exist." rfl⟩

/-! ### Claim C7: POST /api with a missing required field -/

/-- C7: For every POST /api payload from which at least one of the five
required creation fields is absent, the response is an HTTP 400 failure
envelope, no item is inserted (the store is returned unchanged), and the
request cycle still produces a response (no crash). -/
theorem C7_missing_field_rejected (store : Store) (p : Payload)
    (h : p.lookup "title" = none ∨ p.lookup "owner" = none ∨
         p.lookup "description" = none ∨ p.lookup "price" = none ∨
         p.lookup "quantity" = none) :
    (serve store (Request.postNew p)).1 = store ∧
    (serve store (Request.postNew p)).2.status = 400 ∧
    ∃ msg, (serve store (Request.postNew p)).2.body = Body.failed msg := by
  cases ht : p.lookup "title" with
  | none => simp [serve, dispatch, api_new_item, handle_json_error, ht]
  | some t =>
  cases ho : p.lookup "owner" with
  | none => simp [serve, dispatch, api_new_item, handle_json_error, ht, ho]
  | some o =>
  cases hd : p.lookup "description" with
  | none => simp [serve, dispatch, api_new_item, handle_json_error, ht, ho, hd]
  | some d =>
  cases hpr : p.lookup "price" with
  | none =>
    simp [serve, dispatch, api_new_item, handle_json_error, ht, ho, hd, hpr]
  | some pr =>
  cases hq : p.lookup "quantity" with
  | none =>
    simp [serve, dispatch, api_new_item, handle_json_error, ht, ho, hd, hpr, hq]
  | some q =>
    simp [ht, ho, hd, hpr, hq] at h

/-- Witness for C7: a payload carrying only `owner` lacks `title`, and the
served POST leaves the empty store empty and answers 400 `failed`. -/
theorem C7_missing_field_rejected_witness :
    ([("owner", Val.str "bob")] : Payload).lookup "title" = none ∧
    ((serve [] (Request.postNew [("owner", Val.str "bob")])).1 = [] ∧
     (serve [] (Request.postNew [("owner", Val.str "bob")])).2.status = 400 ∧
     ∃ msg, (serve [] (Request.postNew [("owner", Val.str "bob")])).2.body =
       Body.failed msg) :=
  ⟨rfl, C7_missing_field_rejected [] [("owner", Val.str "bob")] (Or.inl rfl)⟩

/-! ### Shared helpers and sample data -/

/-- The error-translation wrapper never changes the handler's committed store. -/
theorem handle_json_error_fst (h : Store × Except String Response) :
    (handle_json_error h).1 = h.1 := by
  rcases h with ⟨s, r⟩
  cases r <;> rfl

/-- The store PATCH leaves behind, independent of the re-fetch outcome. -/
theorem api_update_post_fst (store : Store) (item_id : String) (item : Payload) :
    (api_update_post store item_id item).1 = updatedStore store item_id item := by
  unfold api_update_post
  cases hf : fetch_item (updatedStore store item_id item) item_id <;> simp [hf]

/-- A pointwise relation with the image of a map gives `List.Forall₂`. -/
theorem forall2_map_of_pointwise {α β : Type} (R : α → β → Prop) (f : α → β)
    (l : List α) (h : ∀ a, R a (f a)) : List.Forall₂ R l (List.map f l) := by
  induction l with
  | nil => simp
  | cons a t ih =>
    simp only [List.map_cons, List.forall₂_cons]
    exact ⟨h a, ih⟩

/-- A well-formed creation payload used for concrete instantiations. -/
def samplePayload : Payload :=
  [("title", Val.str "A"), ("owner", Val.str "bob"),
   ("description", Val.str "d"), ("price", Val.int 5),
   ("quantity", Val.int 1)]

/-- The row `samplePayload` creates on an empty store. -/
def sampleRow : Row :=
  { id := 1, title := Val.str "A", description := Val.str "d",
    owner := Val.str "bob", editor := Val.str "bob", price := Val.int 5,
    quantity := Val.int 1 }

/-- `sampleRow` as GET /api/{id} and PATCH /api/{id} render it at path id "1". -/
def sampleItemOut : ItemOut :=
  { id := .strId "1", owner := Val.str "bob", editor := Val.str "bob",
    title := Val.str "A", description := Val.str "d", price := Val.int 5,
    quantity := Val.int 1 }

/-! ### Claim C6: PATCH with an empty update set -/

/-- C6: For every existing item (one `fetch_item` answers for), a PATCH whose
payload contains none of the keys title/description/editor performs no write
— the store comes back unchanged — and returns HTTP 200 carrying the item's
current row. -/
theorem C6_empty_patch_reads_back (store : Store) (item_id : String)
    (p : Payload) (ht : p.lookup "title" = none)
    (hd : p.lookup "description" = none) (he : p.lookup "editor" = none)
    (row : ItemOut) (hex : fetch_item store item_id = Except.ok row) :
    serve store (Request.patchItem item_id p) =
      (store, { status := 200, body := Body.okData row }) := by
  simp [serve, dispatch, api_update_post, updatedStore, handle_json_error,
    ht, hd, he, hex]

/-- Witness for C6: patching item 1 with a payload holding only the ignored
key `owner` leaves the one-row store unchanged and echoes the current row. -/
theorem C6_empty_patch_reads_back_witness :
    (([("owner", Val.str "x")] : Payload).lookup "title" = none ∧
     ([("owner", Val.str "x")] : Payload).lookup "description" = none ∧
     ([("owner", Val.str "x")] : Payload).lookup "editor" = none ∧
     fetch_item [sampleRow] "1" = Except.ok sampleItemOut) ∧
    serve [sampleRow] (Request.patchItem "1" [("owner", Val.str "x")]) =
      ([sampleRow], { status := 200, body := Body.okData sampleItemOut }) :=
  ⟨⟨rfl, rfl, rfl, rfl⟩,
   C6_empty_patch_reads_back [sampleRow] "1" [("owner", Val.str "x")]
     rfl rfl rfl sampleItemOut rfl⟩

/-! ### Claim C5: PATCH frame property -/

/-- The relation between a stored row and its successor under a PATCH whose
payload carries no description or editor key: everything but the title is
unchanged, and the title either stays or (on the matched row) comes from the
payload's `title` key. -/
def patchFrame (item_id : String) (p : Payload) (r r2 : Row) : Prop :=
  r2.id = r.id ∧ r2.owner = r.owner ∧ r2.description = r.description ∧
  r2.editor = r.editor ∧ r2.price = r.price ∧ r2.quantity = r.quantity ∧
  (r2.title = r.title ∨
   (idMatches item_id r.id = true ∧ p.lookup "title" = some r2.title))

/-- C5: For every store, a PATCH whose payload contains neither `description`
nor `editor` (in particular one whose only recognised key is `title`, whatever
other keys — `owner`, `price`, `quantity`, ... — it carries) changes at most
the matched item's title: row for row, description, editor, owner, price,
quantity and id are unchanged. -/
theorem C5_patch_title_frame (store : Store) (item_id : String) (p : Payload)
    (hd : p.lookup "description" = none) (he : p.lookup "editor" = none) :
    List.Forall₂ (patchFrame item_id p) store
      (serve store (Request.patchItem item_id p)).1 := by
  have h1 : (serve store (Request.patchItem item_id p)).1 =
      (api_update_post store item_id p).1 := by
    simp [serve, dispatch, handle_json_error_fst]
  rw [h1, api_update_post_fst]
  unfold updatedStore
  rw [hd, he]
  cases hT : p.lookup "title" with
  | none =>
    simp only [Option.isSome_none, Bool.or_self, Bool.false_or, Bool.or_false,
      Bool.false_eq_true, if_false]
    have := forall2_map_of_pointwise (patchFrame item_id p) id store
      (fun r => ⟨rfl, rfl, rfl, rfl, rfl, rfl, Or.inl rfl⟩)
    simpa using this
  | some t =>
    simp only [Option.isSome_some, Bool.true_or, if_true]
    apply forall2_map_of_pointwise
    intro r
    by_cases hm : idMatches item_id r.id
    · simp only [hm, if_true]
      exact ⟨rfl, rfl, rfl, rfl, rfl, rfl,
        Or.inr ⟨hm, by simp [applyFields, hT]⟩⟩
    · simp only [hm, Bool.false_eq_true, if_false]
      exact ⟨rfl, rfl, rfl, rfl, rfl, rfl, Or.inl rfl⟩

/-- Witness for C5: a PATCH sending a new title together with an attempted
`owner` overwrite relates the one-row store to its updated image. -/
theorem C5_patch_title_frame_witness :
    (([("title", Val.str "B"), ("owner", Val.str "EVIL")] : Payload).lookup
        "description" = none ∧
     ([("title", Val.str "B"), ("owner", Val.str "EVIL")] : Payload).lookup
        "editor" = none) ∧
    List.Forall₂
      (patchFrame "1" [("title", Val.str "B"), ("owner", Val.str "EVIL")])
      [sampleRow]
      (serve [sampleRow] (Request.patchItem "1"
        [("title", Val.str "B"), ("owner", Val.str "EVIL")])).1 :=
  ⟨⟨rfl, rfl⟩,
   C5_patch_title_frame [sampleRow] "1"
     [("title", Val.str "B"), ("owner", Val.str "EVIL")] rfl rfl⟩

/-! ### Claim C2: create-then-fetch round trip -/

/-- Every id already stored is strictly below the id the next INSERT assigns. -/
theorem le_foldr_max (l : List Nat) (x : Nat) (h : x ∈ l) :
    x ≤ l.foldr max 0 := by
  induction l with
  | nil => cases h
  | cons a t ih =>
    rcases List.mem_cons.mp h with rfl | h2
    · exact le_max_left _ _
    · exact le_trans (ih h2) (le_max_right _ _)

/-- Freshness of the assigned rowid: it exceeds every stored id. -/
theorem id_lt_nextId (store : Store) (r : Row) (h : r ∈ store) :
    r.id < nextId store := by
  have := le_foldr_max (List.map Row.id store) r.id
    (List.mem_map_of_mem Row.id h)
  unfold nextId
  omega

/-- A path string denotes at most one integer id. -/
theorem idMatches_unique (s : String) (i j : Nat) (hi : idMatches s i = true)
    (hj : idMatches s j = true) : i = j := by
  unfold idMatches at hi hj
  rw [beq_iff_eq] at hi hj
  rw [hi] at hj
  exact Option.some_inj.mp hj

/-- `find?` skips a prefix in which nothing satisfies the predicate. -/
theorem find?_append_none {α : Type} (p : α → Bool) (l1 l2 : List α)
    (h : List.find? p l1 = none) :
    List.find? p (l1 ++ l2) = List.find? p l2 := by
  induction l1 with
  | nil => rfl
  | cons a t ih =>
    cases hp : p a with
    | true =>
      rw [List.find?_cons_of_pos _ hp] at h
      exact absurd h (by simp)
    | false =>
      rw [List.find?_cons_of_neg _ (by simp [hp])] at h
      rw [List.cons_append, List.find?_cons_of_neg _ (by simp [hp])]
      exact ih h

/-- C2: For every payload carrying all five creation fields, POST /api answers
200 echoing the submitted values with `editor = owner` and the assigned id,
and fetching the new store by any path string denoting that id returns the
same field values, `editor = owner` included. -/
theorem C2_create_then_fetch (store : Store) (p : Payload) (t o d pr q : Val)
    (ht : p.lookup "title" = some t) (ho : p.lookup "owner" = some o)
    (hd : p.lookup "description" = some d) (hpr : p.lookup "price" = some pr)
    (hq : p.lookup "quantity" = some q)
    (s2 : String) (hs : idMatches s2 (nextId store) = true) :
    (serve store (Request.postNew p)).2 =
      { status := 200,
        body := Body.okData ⟨.intId (nextId store), o, o, t, d, pr, q⟩ } ∧
    fetch_item (serve store (Request.postNew p)).1 s2 =
      Except.ok ⟨.strId s2, o, o, t, d, pr, q⟩ := by
  constructor
  · simp [serve, dispatch, api_new_item, handle_json_error, ht, ho, hd, hpr, hq]
  · have h1 : (serve store (Request.postNew p)).1 =
        store ++ [⟨nextId store, t, d, o, o, pr, q⟩] := by
      simp [serve, dispatch, api_new_item, handle_json_error, ht, ho, hd, hpr, hq]
    rw [h1]
    unfold fetch_item
    have hnone : List.find? (fun r => idMatches s2 r.id) store = none := by
      rw [List.find?_eq_none]
      intro r hr hmatch
      have heq := idMatches_unique s2 r.id (nextId store) hmatch hs
      have hlt := id_lt_nextId store r hr
      omega
    rw [find?_append_none _ _ _ hnone]
    simp [List.find?_cons, hs]

/-- Witness for C2: creating from `samplePayload` on the empty store and
fetching back at path "1". -/
theorem C2_create_then_fetch_witness :
    (samplePayload.lookup "title" = some (Val.str "A") ∧
     samplePayload.lookup "owner" = some (Val.str "bob") ∧
     samplePayload.lookup "description" = some (Val.str "d") ∧
     samplePayload.lookup "price" = some (Val.int 5) ∧
     samplePayload.lookup "quantity" = some (Val.int 1) ∧
     idMatches "1" (nextId []) = true) ∧
    ((serve [] (Request.postNew samplePayload)).2 =
      { status := 200,
        body := Body.okData ⟨.intId (nextId []), Val.str "bob", Val.str "bob",
          Val.str "A", Val.str "d", Val.int 5, Val.int 1⟩ } ∧
     fetch_item (serve [] (Request.postNew samplePayload)).1 "1" =
      Except.ok ⟨.strId "1", Val.str "bob", Val.str "bob", Val.str "A",
        Val.str "d", Val.int 5, Val.int 1⟩) :=
  ⟨⟨rfl, rfl, rfl, rfl, rfl, rfl⟩,
   C2_create_then_fetch [] samplePayload (Val.str "A") (Val.str "bob")
     (Val.str "d") (Val.int 5) (Val.int 1) rfl rfl rfl rfl rfl "1" rfl⟩

/-! ### Claim C10: id representation differs per route -/

/-- `fetch_item` always echoes the raw path string as the `id` field. -/
theorem fetch_item_id (store : Store) (s : String) (item : ItemOut)
    (h : fetch_item store s = Except.ok item) : item.id = IdRepr.strId s := by
  unfold fetch_item at h
  cases hf : List.find? (fun r => idMatches s r.id) store with
  | none => rw [hf] at h; simp at h
  | some row =>
    rw [hf] at h
    simp only [Except.ok.injEq] at h
    rw [← h]

/-- C10: Every successful GET /api/{id} or PATCH /api/{id} returns the raw
path segment string as the `id` of its data, while every successful POST /api
returns the assigned integer id and GET /api lists integer ids only — so a
fetched item's id is typed differently from a created or listed one. -/
theorem C10_id_representation_split :
    (∀ (store : Store) (s : String) (d : ItemOut),
        (serve store (Request.getItem s)).2 =
          { status := 200, body := Body.okData d } →
        d.id = IdRepr.strId s) ∧
    (∀ (store : Store) (s : String) (p : Payload) (d : ItemOut),
        (serve store (Request.patchItem s p)).2 =
          { status := 200, body := Body.okData d } →
        d.id = IdRepr.strId s) ∧
    (∀ (store : Store) (p : Payload) (d : ItemOut),
        (serve store (Request.postNew p)).2 =
          { status := 200, body := Body.okData d } →
        d.id = IdRepr.intId (nextId store)) ∧
    (∀ (store : Store) (l : List ItemOut),
        (serve store Request.getList).2 =
          { status := 200, body := Body.okList l } →
        ∀ x ∈ l, ∃ n : Nat, x.id = IdRepr.intId n) := by
  refine ⟨?_, ?_, ?_, ?_⟩
  · intro store s d h
    cases hf : fetch_item store s with
    | error e => simp [serve, dispatch, api_get_item, handle_json_error, hf] at h
    | ok item =>
      have h2 : (serve store (Request.getItem s)).2 =
          { status := 200, body := Body.okData item } := by
        simp [serve, dispatch, api_get_item, handle_json_error, hf]
      rw [h2] at h
      simp only [Response.mk.injEq, Body.okData.injEq, true_and] at h
      rw [← h]
      exact fetch_item_id store s item hf
  · intro store s p d h
    simp only [serve, dispatch] at h
    unfold api_update_post at h
    cases hf : fetch_item (updatedStore store s p) s with
    | error e => rw [hf] at h; simp [handle_json_error] at h
    | ok item =>
      rw [hf] at h
      simp only [handle_json_error, Response.mk.injEq, Body.okData.injEq,
        true_and] at h
      rw [← h]
      exact fetch_item_id _ s item hf
  · intro store p d h
    cases ht : p.lookup "title" with
    | none => simp [serve, dispatch, api_new_item, handle_json_error, ht] at h
    | some t =>
    cases ho : p.lookup "owner" with
    | none => simp [serve, dispatch, api_new_item, handle_json_error, ht, ho] at h
    | some o =>
    cases hd : p.lookup "description" with
    | none =>
      simp [serve, dispatch, api_new_item, handle_json_error, ht, ho, hd] at h
    | some de =>
    cases hpr : p.lookup "price" with
    | none =>
      simp [serve, dispatch, api_new_item, handle_json_error, ht, ho, hd,
        hpr] at h
    | some pr =>
    cases hq : p.lookup "quantity" with
    | none =>
      simp [serve, dispatch, api_new_item, handle_json_error, ht, ho, hd, hpr,
        hq] at h
    | some q =>
      have h2 : (serve store (Request.postNew p)).2 =
          { status := 200,
            body := Body.okData ⟨.intId (nextId store), o, o, t, de, pr, q⟩ } := by
        simp [serve, dispatch, api_new_item, handle_json_error, ht, ho, hd,
          hpr, hq]
      rw [h2] at h
      simp only [Response.mk.injEq, Body.okData.injEq, true_and] at h
      rw [← h]
  · intro store l h
    have h2 : (serve store Request.getList).2 =
        { status := 200,
          body := Body.okList (List.map (fun r : Row =>
            ⟨.intId r.id, r.owner, r.editor, r.title, r.description,
             r.price, r.quantity⟩) store) } := by
      simp [serve, dispatch, api_list_items, handle_json_error]
    rw [h2] at h
    simp only [Response.mk.injEq, Body.okList.injEq, true_and] at h
    intro x hx
    rw [← h] at hx
    rcases List.mem_map.mp hx with ⟨r, hr, hxr⟩
    exact ⟨r.id, by rw [← hxr]⟩

/-- `sampleRow` as POST /api and GET /api render it: integer id. -/
def sampleIntItemOut : ItemOut :=
  { id := .intId 1, owner := Val.str "bob", editor := Val.str "bob",
    title := Val.str "A", description := Val.str "d", price := Val.int 5,
    quantity := Val.int 1 }

/-- Witness for C10: on a one-row store, GET /api/1 and an empty PATCH /api/1
return the string id "1", while POST /api and GET /api carry integer ids. -/
theorem C10_id_representation_split_witness :
    ((serve [sampleRow] (Request.getItem "1")).2 =
        { status := 200, body := Body.okData sampleItemOut } ∧
     sampleItemOut.id = IdRepr.strId "1") ∧
    ((serve [sampleRow] (Request.patchItem "1" [])).2 =
        { status := 200, body := Body.okData sampleItemOut } ∧
     sampleItemOut.id = IdRepr.strId "1") ∧
    ((serve [] (Request.postNew samplePayload)).2 =
        { status := 200, body := Body.okData sampleIntItemOut } ∧
     sampleIntItemOut.id = IdRepr.intId (nextId [])) ∧
    ((serve [sampleRow] Request.getList).2 =
        { status := 200, body := Body.okList [sampleIntItemOut] } ∧
     ∀ x ∈ [sampleIntItemOut], ∃ n : Nat, x.id = IdRepr.intId n) :=
  ⟨⟨rfl, C10_id_representation_split.1 [sampleRow] "1" sampleItemOut rfl⟩,
   ⟨rfl, C10_id_representation_split.2.1 [sampleRow] "1" [] sampleItemOut rfl⟩,
   ⟨rfl, C10_id_representation_split.2.2.1 [] samplePayload sampleIntItemOut rfl⟩,
   ⟨rfl, C10_id_representation_split.2.2.2 [sampleRow] [sampleIntItemOut] rfl⟩⟩

/-! ### Claims C3 and C4: DELETE /api/{id} and the string-binding slip -/

/-- C3 (evaluation at the failing input): after ten successful creations the
store holds an item with id 10, yet DELETE /api/10 does not delete it.
`db.execute("DELETE FROM items WHERE id = ?", item_id)` passes the string
itself as the parameter sequence, so "10" supplies two one-character bindings
for one placeholder; sqlite raises `ProgrammingError`, the wrapper answers
400 `failed`, and the store is left unchanged — not the claimed 200
`{"status":"ok","id":id}` with the item removed. -/
theorem C3_delete_existing_binding_bug :
    List.map Row.id
        (execTrace (List.replicate 10 (Request.postNew samplePayload))) =
      [1, 2, 3, 4, 5, 6, 7, 8, 9, 10] ∧
    serve (execTrace (List.replicate 10 (Request.postNew samplePayload)))
        (Request.deleteItem "10") =
      (execTrace (List.replicate 10 (Request.postNew samplePayload)),
       { status := 400,
         body := Body.failed
           "Incorrect number of bindings supplied. The current statement uses 1, and there are 2 supplied." }) :=
  ⟨rfl, rfl⟩

/-- C4 (evaluation at the failing input): with a single stored item of id 1,
no stored item matches id 10, yet DELETE /api/10 does not return the claimed
404 `{"status":"fail",...}`: the two-character id string supplies two
bindings for the single placeholder, so the handler raises
`ProgrammingError` before the not-found branch is reached and the response
is the generic 400 `failed` envelope (the store is indeed unchanged). -/
theorem C4_delete_missing_binding_bug :
    List.find? (fun r => idMatches "10" r.id)
        (execTrace [Request.postNew samplePayload]) = none ∧
    serve (execTrace [Request.postNew samplePayload])
        (Request.deleteItem "10") =
      (execTrace [Request.postNew samplePayload],
       { status := 400,
         body := Body.failed
           "Incorrect number of bindings supplied. The current statement uses 1, and there are 2 supplied." }) :=
  ⟨rfl, rfl⟩

/-! ### Claim C8: non-null fields invariant -/

/-- All six non-id fields of a stored row are non-null. -/
def rowNonNull (r : Row) : Prop :=
  r.title ≠ Val.null ∧ r.description ≠ Val.null ∧ r.owner ≠ Val.null ∧
  r.editor ≠ Val.null ∧ r.price ≠ Val.null ∧ r.quantity ≠ Val.null

/-- No value of the payload is JSON null. -/
def payloadNonNull (p : Payload) : Prop := ∀ kv ∈ p, kv.2 ≠ Val.null

/-- A request whose body (if any) carries no null values. -/
def reqNonNull : Request → Prop
  | Request.postNew p => payloadNonNull p
  | Request.patchItem _ p => payloadNonNull p
  | _ => True

/-- A creation payload that is complete (all five keys present) but carries
the JSON value `null` for `title`: POST only checks key presence, and the
schema has no NOT NULL constraint, so the null is stored. -/
def nullTitlePayload : Payload :=
  [("title", Val.null), ("owner", Val.str "bob"),
   ("description", Val.str "d"), ("price", Val.int 5),
   ("quantity", Val.int 1)]

/-- Counterexample to C8: it is not the case that every item of every
reachable store has non-null fields — one create request with a complete
payload whose `title` is null yields a reachable store whose single item has
a null title. -/
theorem C8_null_field_counterexample :
    ¬ (∀ reqs : List Request, ∀ r ∈ execTrace reqs, rowNonNull r) := by
  intro h
  have hm : (⟨1, Val.null, Val.str "d", Val.str "bob", Val.str "bob",
      Val.int 5, Val.int 1⟩ : Row) ∈
      execTrace [Request.postNew nullTitlePayload] := by
    have he : execTrace [Request.postNew nullTitlePayload] =
        [⟨1, Val.null, Val.str "d", Val.str "bob", Val.str "bob",
          Val.int 5, Val.int 1⟩] := rfl
    rw [he]
    exact List.mem_singleton.mpr rfl
  exact (h [Request.postNew nullTitlePayload] _ hm).1 rfl

/-- A served request's resulting store is the dispatched handler's store. -/
theorem stepStore_eq_dispatch_fst (s : Store) (req : Request) :
    stepStore s req = (dispatch s req).1 :=
  handle_json_error_fst _

/-- A successful dict lookup returns one of the dict's values. -/
theorem lookup_val_mem (p : Payload) (k : String) (v : Val)
    (h : p.lookup k = some v) : ∃ k2, (k2, v) ∈ p := by
  induction p with
  | nil => simp [Payload.lookup] at h
  | cons a t ih =>
    rcases a with ⟨k2, v2⟩
    simp only [Payload.lookup] at h
    by_cases hk : k2 = k
    · rw [if_pos hk] at h
      cases h
      exact ⟨k2, List.mem_cons_self _ _⟩
    · rw [if_neg hk] at h
      rcases ih h with ⟨k3, hm⟩
      exact ⟨k3, List.mem_cons_of_mem _ hm⟩

/-- Looked-up values of a null-free payload are non-null. -/
theorem lookup_nonNull (p : Payload) (hp : payloadNonNull p) (k : String)
    (v : Val) (h : p.lookup k = some v) : v ≠ Val.null := by
  rcases lookup_val_mem p k v h with ⟨k2, hm⟩
  exact hp (k2, v) hm

/-- One served request with a null-free body preserves the all-fields-non-null
store invariant. -/
theorem stepStore_nonNull (s : Store) (req : Request)
    (hs : ∀ r ∈ s, rowNonNull r) (hreq : reqNonNull req) :
    ∀ r ∈ stepStore s req, rowNonNull r := by
  rw [stepStore_eq_dispatch_fst]
  cases req with
  | getIndex => exact hs
  | getList => exact hs
  | getItem item_id => exact hs
  | postNew p =>
    simp only [dispatch]
    cases ht : p.lookup "title" with
    | none => unfold api_new_item; rw [ht]; exact hs
    | some t =>
    cases ho : p.lookup "owner" with
    | none => unfold api_new_item; rw [ht, ho]; exact hs
    | some o =>
    cases hd : p.lookup "description" with
    | none => unfold api_new_item; rw [ht, ho, hd]; exact hs
    | some d =>
    cases hpr : p.lookup "price" with
    | none => unfold api_new_item; rw [ht, ho, hd, hpr]; exact hs
    | some pr =>
    cases hq : p.lookup "quantity" with
    | none => unfold api_new_item; rw [ht, ho, hd, hpr, hq]; exact hs
    | some q =>
      have h1 : (api_new_item s p).1 =
          s ++ [⟨nextId s, t, d, o, o, pr, q⟩] := by
        unfold api_new_item
        rw [ht, ho, hd, hpr, hq]
      rw [h1]
      intro r hr
      rcases List.mem_append.mp hr with h2 | h2
      · exact hs r h2
      · rcases List.mem_singleton.mp h2 with rfl
        have hP : payloadNonNull p := hreq
        exact ⟨lookup_nonNull p hP _ t ht, lookup_nonNull p hP _ d hd,
               lookup_nonNull p hP _ o ho, lookup_nonNull p hP _ o ho,
               lookup_nonNull p hP _ pr hpr, lookup_nonNull p hP _ q hq⟩
  | patchItem item_id p =>
    simp only [dispatch]
    rw [api_update_post_fst]
    unfold updatedStore
    have hP : payloadNonNull p := hreq
    by_cases hc : ((p.lookup "title").isSome ||
        (p.lookup "description").isSome || (p.lookup "editor").isSome) = true
    · rw [if_pos hc]
      intro r hr
      rcases List.mem_map.mp hr with ⟨r0, hr0, hfr⟩
      by_cases hm : idMatches item_id r0.id = true
      · rw [if_pos hm] at hfr
        rcases hs r0 hr0 with ⟨h1, h2, h3, h4, h5, h6⟩
        subst hfr
        unfold applyFields
        refine ⟨?_, ?_, h3, ?_, h5, h6⟩
        · cases hT : p.lookup "title" with
          | none => simpa [hT] using h1
          | some v => simpa [hT] using lookup_nonNull p hP _ v hT
        · cases hD : p.lookup "description" with
          | none => simpa [hD] using h2
          | some v => simpa [hD] using lookup_nonNull p hP _ v hD
        · cases hE : p.lookup "editor" with
          | none => simpa [hE] using h4
          | some v => simpa [hE] using lookup_nonNull p hP _ v hE
      · rw [if_neg hm] at hfr
        subst hfr
        exact hs r0 hr0
    · rw [if_neg hc]
      exact hs
  | deleteItem item_id =>
    simp only [dispatch]
    unfold api_del_item
    by_cases hl : item_id.length = 1
    · rw [if_pos hl]
      by_cases hz : List.countP (fun r => idMatches item_id r.id) s = 0
      · simp only [hz, if_pos rfl]
        exact hs
      · simp only [if_neg hz]
        intro r hr
        exact hs r (List.mem_of_mem_filter hr)
    · rw [if_neg hl]
      exact hs

/-- The invariant carried along any served request sequence. -/
theorem foldl_nonNull (reqs : List Request) : ∀ s : Store,
    (∀ req ∈ reqs, reqNonNull req) → (∀ r ∈ s, rowNonNull r) →
    ∀ r ∈ List.foldl stepStore s reqs, rowNonNull r := by
  induction reqs with
  | nil => intro s _ hs; simpa using hs
  | cons a t ih =>
    intro s hreq hs
    rw [List.foldl_cons]
    exact ih (stepStore s a)
      (fun req hm => hreq req (List.mem_cons_of_mem _ hm))
      (stepStore_nonNull s a hs (hreq a (List.mem_cons_self _ _)))

/-- C8 amended: every stored field holds exactly a value submitted at
creation or update time, so the claimed invariant holds under the proviso
the counterexample forces: as long as no request body carries a JSON null,
every item of every reachable store has non-null values for all six non-id
fields.  (The store checks key presence only — a present-but-null field is
accepted and stored as NULL, which is what `C8_null_field_counterexample`
exhibits.) -/
theorem C8_nonNull_invariant_amended (reqs : List Request)
    (h : ∀ req ∈ reqs, reqNonNull req) :
    ∀ r ∈ execTrace reqs, rowNonNull r :=
  foldl_nonNull reqs [] h (by simp)

/-- Witness for the amended C8: one null-free create yields a store whose
rows all have non-null fields. -/
theorem C8_nonNull_invariant_amended_witness :
    (∀ req ∈ [Request.postNew samplePayload], reqNonNull req) ∧
    (∀ r ∈ execTrace [Request.postNew samplePayload], rowNonNull r) :=
  have hhyp : ∀ req ∈ [Request.postNew samplePayload], reqNonNull req := by
    simp only [List.mem_singleton, forall_eq, reqNonNull, payloadNonNull,
      samplePayload]
    rintro ⟨a, b⟩ hm
    simp only [List.mem_cons, List.not_mem_nil, or_false, Prod.mk.injEq] at hm
    rcases hm with ⟨-, rfl⟩ | ⟨-, rfl⟩ | ⟨-, rfl⟩ | ⟨-, rfl⟩ | ⟨-, rfl⟩ <;> simp
  ⟨hhyp, C8_nonNull_invariant_amended [Request.postNew samplePayload] hhyp⟩

/-! ### Claim C9: N creates and M deletes leave N − M items -/

/-- The request is a POST /api or DELETE /api/{id}. -/
def isCreateOrDelete : Request → Bool
  | Request.postNew _ => true
  | Request.deleteItem _ => true
  | _ => false

/-- A successful create or delete step: the served response is a 200. -/
def okStep (s : Store) (req : Request) : Prop :=
  isCreateOrDelete req = true ∧ (serve s req).2.status = 200

/-- Every request of the sequence, run from `s`, is a successful create or
delete at the store state it encounters. -/
def goodFrom (s : Store) : List Request → Prop
  | [] => True
  | req :: rest => okStep s req ∧ goodFrom (stepStore s req) rest

/-- N: number of creation requests in the sequence. -/
def countCreates (reqs : List Request) : Nat :=
  List.countP (fun req => match req with
    | Request.postNew _ => true | _ => false) reqs

/-- M: number of deletion requests in the sequence. -/
def countDeletes (reqs : List Request) : Nat :=
  List.countP (fun req => match req with
    | Request.deleteItem _ => true | _ => false) reqs

/-- The id the next create assigns, at the level of id lists. -/
def freshId (ids : List Nat) : Nat := ids.foldr max 0 + 1

/-- Claim-side ghost computation of the surviving ids: each create appends
its assigned id, each delete erases the id it denotes — the assigned ids of
the created items that were not (yet) deleted. -/
def specIds (ids : List Nat) : List Request → List Nat
  | [] => ids
  | Request.postNew _ :: rest => specIds (ids ++ [freshId ids]) rest
  | Request.deleteItem d :: rest =>
      specIds (List.filter (fun i => !(idMatches d i)) ids) rest
  | _ :: rest => specIds ids rest

theorem countCreates_cons_post (p : Payload) (rest : List Request) :
    countCreates (Request.postNew p :: rest) = countCreates rest + 1 := by
  simp [countCreates, List.countP_cons]

theorem countDeletes_cons_post (p : Payload) (rest : List Request) :
    countDeletes (Request.postNew p :: rest) = countDeletes rest := by
  simp [countDeletes, List.countP_cons]

theorem countCreates_cons_del (d : String) (rest : List Request) :
    countCreates (Request.deleteItem d :: rest) = countCreates rest := by
  simp [countCreates, List.countP_cons]

theorem countDeletes_cons_del (d : String) (rest : List Request) :
    countDeletes (Request.deleteItem d :: rest) = countDeletes rest + 1 := by
  simp [countDeletes, List.countP_cons]

/-- A create that answers 200 appended exactly one row, carrying the fresh id. -/
theorem postNew_success_step (s : Store) (p : Payload)
    (h : (serve s (Request.postNew p)).2.status = 200) :
    ∃ row : Row, row.id = nextId s ∧
      stepStore s (Request.postNew p) = s ++ [row] := by
  cases ht : p.lookup "title" with
  | none => simp [serve, dispatch, api_new_item, handle_json_error, ht] at h
  | some t =>
  cases ho : p.lookup "owner" with
  | none => simp [serve, dispatch, api_new_item, handle_json_error, ht, ho] at h
  | some o =>
  cases hd : p.lookup "description" with
  | none =>
    simp [serve, dispatch, api_new_item, handle_json_error, ht, ho, hd] at h
  | some d =>
  cases hpr : p.lookup "price" with
  | none =>
    simp [serve, dispatch, api_new_item, handle_json_error, ht, ho, hd,
      hpr] at h
  | some pr =>
  cases hq : p.lookup "quantity" with
  | none =>
    simp [serve, dispatch, api_new_item, handle_json_error, ht, ho, hd, hpr,
      hq] at h
  | some q =>
    refine ⟨⟨nextId s, t, d, o, o, pr, q⟩, rfl, ?_⟩
    simp [stepStore, serve, dispatch, api_new_item, handle_json_error, ht, ho,
      hd, hpr, hq]

/-- A delete that answers 200 hit at least one row and left the filtered store. -/
theorem delete_success_step (s : Store) (d : String)
    (h : (serve s (Request.deleteItem d)).2.status = 200) :
    List.countP (fun r => idMatches d r.id) s ≠ 0 ∧
    stepStore s (Request.deleteItem d) =
      List.filter (fun r => !(idMatches d r.id)) s := by
  by_cases hl : d.length = 1
  · by_cases hz : List.countP (fun r => idMatches d r.id) s = 0
    · exfalso
      simp [serve, dispatch, api_del_item, handle_json_error, hl, hz] at h
    · exact ⟨hz, by
        simp [stepStore, serve, dispatch, api_del_item, handle_json_error,
          hl, hz]⟩
  · exfalso
    simp [serve, dispatch, api_del_item, handle_json_error, hl] at h

/-- On a duplicate-free id list one key is hit at most once. -/
theorem countP_eq_key_le_one (k : Nat) (ids : List Nat) (h : ids.Nodup) :
    List.countP (fun i => k == i) ids ≤ 1 := by
  induction ids with
  | nil => simp
  | cons a t ih =>
    rcases List.nodup_cons.mp h with ⟨ha, ht⟩
    rw [List.countP_cons]
    by_cases hk : k = a
    · subst hk
      have hz : List.countP (fun i => k == i) t = 0 := by
        rw [List.countP_eq_zero]
        intro b hb
        simp only [beq_iff_eq]
        intro hkb
        exact ha (hkb ▸ hb)
      simp [hz]
    · have hne : (k == a) = false := by simp [hk]
      simp only [hne, Bool.false_eq_true, if_false]
      exact ih ht

/-- With duplicate-free ids, a DELETE statement matches at most one row. -/
theorem countP_idMatch_rows_le_one (d : String) (s : Store)
    (hnd : (List.map Row.id s).Nodup) :
    List.countP (fun r => idMatches d r.id) s ≤ 1 := by
  cases htd : textToNat? d with
  | none =>
    have hz : List.countP (fun r => idMatches d r.id) s = 0 := by
      rw [List.countP_eq_zero]
      intro r hr
      simp [idMatches, htd]
    omega
  | some k =>
    have hfun : (fun r : Row => idMatches d r.id) =
        ((fun i => k == i) ∘ Row.id) := by
      funext r
      simp [idMatches, htd, Function.comp]
    rw [hfun, ← List.countP_map]
    exact countP_eq_key_le_one k (List.map Row.id s) hnd

/-- Splitting a list by a predicate preserves its length. -/
theorem length_filter_not_add_countP {α : Type} (p : α → Bool) (l : List α) :
    (List.filter (fun a => !(p a)) l).length + List.countP p l = l.length := by
  induction l with
  | nil => rfl
  | cons a t ih =>
    rw [List.countP_cons, List.filter_cons]
    by_cases hp : p a = true
    · simp [hp]
      omega
    · simp only [Bool.not_eq_true] at hp
      simp [hp]
      omega

/-- Appending a row with the fresh id keeps the id list duplicate-free. -/
theorem nodup_append_fresh (s : Store) (row : Row) (hrow : row.id = nextId s)
    (h : (List.map Row.id s).Nodup) :
    (List.map Row.id (s ++ [row])).Nodup := by
  rw [List.map_append, List.map_singleton, List.nodup_append]
  refine ⟨h, List.nodup_singleton _, ?_⟩
  intro a ha hb
  rcases List.mem_singleton.mp hb with rfl
  rcases List.mem_map.mp ha with ⟨r, hr, hid⟩
  have := id_lt_nextId s r hr
  rw [hid, hrow] at this
  omega

/-- Filtering rows keeps the id list duplicate-free. -/
theorem nodup_filter_ids (s : Store) (p : Row → Bool)
    (h : (List.map Row.id s).Nodup) :
    (List.map Row.id (List.filter p s)).Nodup :=
  ((List.filter_sublist s).map Row.id).nodup h

/-- Deleting rows by id projects to filtering the id list. -/
theorem map_id_filter (d : String) (s : Store) :
    List.map Row.id (List.filter (fun r => !(idMatches d r.id)) s) =
    List.filter (fun i => !(idMatches d i)) (List.map Row.id s) := by
  induction s with
  | nil => rfl
  | cons a t ih =>
    rw [List.map_cons, List.filter_cons, List.filter_cons]
    by_cases hm : idMatches d a.id = true
    · simp [hm, ih]
    · simp [hm, ih]

/-- The inductive core for C9: along any all-successful create/delete
sequence the store's size changes by creates minus deletes, its id list is
the ghost `specIds` computation, and ids stay duplicate-free. -/
theorem good_trace_exec (reqs : List Request) : ∀ s : Store,
    (List.map Row.id s).Nodup → goodFrom s reqs →
    (List.foldl stepStore s reqs).length + countDeletes reqs =
      s.length + countCreates reqs ∧
    List.map Row.id (List.foldl stepStore s reqs) =
      specIds (List.map Row.id s) reqs ∧
    (List.map Row.id (List.foldl stepStore s reqs)).Nodup := by
  induction reqs with
  | nil =>
    intro s hnd _
    exact ⟨by simp [countDeletes, countCreates], by simp [specIds], by simpa⟩
  | cons req rest ih =>
    intro s hnd hg
    obtain ⟨⟨hcd, h200⟩, hgrest⟩ := hg
    rw [List.foldl_cons]
    cases req with
    | getIndex => exact absurd hcd (by simp [isCreateOrDelete])
    | getList => exact absurd hcd (by simp [isCreateOrDelete])
    | getItem i => exact absurd hcd (by simp [isCreateOrDelete])
    | patchItem i p => exact absurd hcd (by simp [isCreateOrDelete])
    | postNew p =>
      obtain ⟨row, hrowid, hstep⟩ := postNew_success_step s p h200
      have hnd2 : (List.map Row.id (stepStore s (Request.postNew p))).Nodup := by
        rw [hstep]
        exact nodup_append_fresh s row hrowid hnd
      obtain ⟨hlen, hids, hnd3⟩ :=
        ih (stepStore s (Request.postNew p)) hnd2 hgrest
      have hlen2 : (stepStore s (Request.postNew p)).length = s.length + 1 := by
        rw [hstep]
        simp
      refine ⟨?_, ?_, hnd3⟩
      · rw [countCreates_cons_post, countDeletes_cons_post]
        omega
      · have hmap : List.map Row.id (stepStore s (Request.postNew p)) =
            List.map Row.id s ++ [freshId (List.map Row.id s)] := by
          rw [hstep, List.map_append, List.map_singleton, hrowid]
          rfl
        rw [hids, hmap]
        rfl
    | deleteItem d =>
      obtain ⟨hcz, hstep⟩ := delete_success_step s d h200
      have hle := countP_idMatch_rows_le_one d s hnd
      have hflt := length_filter_not_add_countP
        (fun r => idMatches d r.id) s
      have hnd2 : (List.map Row.id (stepStore s (Request.deleteItem d))).Nodup := by
        rw [hstep]
        exact nodup_filter_ids s _ hnd
      obtain ⟨hlen, hids, hnd3⟩ :=
        ih (stepStore s (Request.deleteItem d)) hnd2 hgrest
      have hlen2 : (stepStore s (Request.deleteItem d)).length + 1 = s.length := by
        rw [hstep]
        omega
      refine ⟨?_, ?_, hnd3⟩
      · rw [countCreates_cons_del, countDeletes_cons_del]
        omega
      · have hmap : List.map Row.id (stepStore s (Request.deleteItem d)) =
            List.filter (fun i => !(idMatches d i)) (List.map Row.id s) := by
          rw [hstep]
          exact map_id_filter d s
        rw [hids, hmap]
        rfl

/-- C9: Starting from the empty store, after any interleaving of N successful
creates and M successful deletes (each answering 200 at the store state it
meets), listing finds exactly N − M items, and their ids are exactly the
assigned ids of the created items that were not deleted (the `specIds` ghost
fold, in order). -/
theorem C9_interleaved_creates_deletes (reqs : List Request)
    (h : goodFrom [] reqs) :
    (execTrace reqs).length = countCreates reqs - countDeletes reqs ∧
    (execTrace reqs).length + countDeletes reqs = countCreates reqs ∧
    List.map Row.id (execTrace reqs) = specIds [] reqs := by
  obtain ⟨hlen, hids, -⟩ := good_trace_exec reqs [] (by simp) h
  have hlen2 : (execTrace reqs).length + countDeletes reqs =
      countCreates reqs := by simpa using hlen
  exact ⟨by omega, hlen2, by simpa using hids⟩

/-- A concrete trace: create, create, delete the first, create again. -/
def demoTrace : List Request :=
  [Request.postNew samplePayload, Request.postNew samplePayload,
   Request.deleteItem "1", Request.postNew samplePayload]

/-- Witness for C9: the demo trace is all-successful; 3 creates and 1 delete
leave 2 items whose ids are the surviving assigned ids [2, 3]. -/
theorem C9_interleaved_creates_deletes_witness :
    goodFrom [] demoTrace ∧
    ((execTrace demoTrace).length =
        countCreates demoTrace - countDeletes demoTrace ∧
     (execTrace demoTrace).length + countDeletes demoTrace =
        countCreates demoTrace ∧
     List.map Row.id (execTrace demoTrace) = specIds [] demoTrace) :=
  have hg : goodFrom [] demoTrace :=
    ⟨⟨rfl, rfl⟩, ⟨rfl, rfl⟩, ⟨rfl, rfl⟩, ⟨rfl, rfl⟩, trivial⟩
  ⟨hg, C9_interleaved_creates_deletes demoTrace hg⟩
